import Mathlib

/-!
Verification of the MEDI prescription trust layer.

This file gives a shallow embedding, in Lean, of the confidence, interaction
and hallucination evaluation engine of the MEDI backend, and proves (or
refutes) the behavioural claims made about it.  All definitions are
translated from the Python source:

* `backend/tests/test_ocr_evaluation.py` — text normalisation (`normalise`);
* `backend/modules/medical_api.py` — the four drug-reference lookups;
* `backend/modules/confidence_scorer.py` — diagnosis/medication confidence;
* `backend/modules/drug_interaction_checker.py` — `check_interactions`;
* `backend/modules/evaluation.py` — `compute_parsing_f1`,
  `detect_hallucinations`.

External collaborators (HTTP services, the LLM) are modelled as explicit
inputs: an `HttpResult` per network call and an outcome value per LLM call,
so every control path of the Python code is a reachable branch of the Lean
functions.  Character-level primitives (`str.lower`, `str.strip`, the regex
classes `\w`/`\s`, NFKD) are modelled at ASCII fidelity, which is exact for
every concrete input appearing in the claims.
-/

namespace Medi

/-! ### Python character primitives (ASCII fidelity) -/

/-- Python whitespace (`str.strip` default set, regex `\s`), ASCII range:
space, tab, newline, carriage return, vertical tab, form feed. -/
def pyIsSpace (c : Char) : Bool :=
  c = ' ' || c = '\t' || c = '\n' || c = '\x0d' || c = '\x0b' || c = '\x0c'

/-- Python `str.lower` on a single character.  Exact on ASCII (the only
range the verified claims exercise); identity elsewhere. -/
def pyLowerChar (c : Char) : Char :=
  if 65 ≤ c.toNat ∧ c.toNat ≤ 90 then Char.ofNat (c.toNat + 32) else c

/-- ASCII letter, the regex class `[A-Za-z]`. -/
def isAsciiAlpha (c : Char) : Bool :=
  ('A' ≤ c && c ≤ 'Z') || ('a' ≤ c && c ≤ 'z')

/-- ASCII digit. -/
def isAsciiDigit (c : Char) : Bool :=
  '0' ≤ c && c ≤ '9'

/-- The regex class `\w` (word character), at ASCII fidelity:
letters, digits and underscore. -/
def isWordChar (c : Char) : Bool :=
  isAsciiAlpha c || isAsciiDigit c || c = '_'

/-! ### Python string primitives, as functions on `List Char` -/

/-- Remove trailing whitespace (the right half of Python `str.strip`). -/
def dropTrailingSpace (l : List Char) : List Char :=
  (l.reverse.dropWhile pyIsSpace).reverse

/-- Python `str.strip()` on a character list. -/
def stripL (l : List Char) : List Char :=
  dropTrailingSpace (l.dropWhile pyIsSpace)

/-- Python `str.strip()`. -/
def pyStrip (s : String) : String :=
  ⟨stripL s.data⟩

/-- Python `str.lower()` on a character list. -/
def lowerL (l : List Char) : List Char :=
  l.map pyLowerChar

/-- Python `str.lower()`. -/
def pyLower (s : String) : String :=
  ⟨lowerL s.data⟩

/-- NFKD decomposition of one character.  Unicode NFKD is the identity on
ASCII; the non-ASCII decomposition table is outside the scope of this
embedding (no claim exercises it), so the map is the identity. -/
def nfkdChar (c : Char) : List Char := [c]

/-- `unicodedata.normalize("NFKD", ·)` on a character list. -/
def nfkdL (l : List Char) : List Char :=
  l.flatMap nfkdChar

/-! ### The `normalise` function of `tests/test_ocr_evaluation.py` -/

/-- The character class kept by `re.sub(r"[^\w\s.,;:/()\-]", "", ·)`:
word characters, whitespace, and the punctuation `.,;:/()-`. -/
def keepChar (c : Char) : Bool :=
  isWordChar c || pyIsSpace c || c = '.' || c = ',' || c = ';' || c = ':' ||
    c = '/' || c = '(' || c = ')' || c = '-'

/-- `re.sub(r"\s+", " ", ·)`: replace each maximal whitespace run by a single
space.  The boolean argument records whether the previous character belonged
to a whitespace run. -/
def collapseAux : Bool → List Char → List Char
  | _, [] => []
  | prevSpace, c :: rest =>
    if pyIsSpace c then
      if prevSpace then collapseAux true rest
      else ' ' :: collapseAux true rest
    else c :: collapseAux false rest

/-- `re.sub(r"\s+", " ", ·)` on a character list. -/
def collapseL (l : List Char) : List Char :=
  collapseAux false l

/-- `normalise` from `tests/test_ocr_evaluation.py`: NFKD-normalise, then
`lower().strip()`, then delete the characters outside `[\w\s.,;:/()\-]`,
then collapse whitespace runs to single spaces. -/
def normaliseL (l : List Char) : List Char :=
  collapseL ((stripL (lowerL (nfkdL l))).filter keepChar)

/-- `normalise` from `tests/test_ocr_evaluation.py`, on strings. -/
def normalise (s : String) : String :=
  ⟨normaliseL s.data⟩

/-! ### JSON values

A mutual inductive (rather than a nested one) so that all functions over it
are structurally recursive and reduce inside the kernel. -/

mutual

inductive JsonValue where
  | null
  | bool (b : Bool)
  | num (n : Int)
  | str (s : String)
  | arr (items : JsonList)
  | obj (fields : JsonObj)

inductive JsonList where
  | nil
  | cons (head : JsonValue) (tail : JsonList)

inductive JsonObj where
  | nil
  | cons (key : String) (val : JsonValue) (tail : JsonObj)

end

/-- The elements of a JSON array, as a Lean list. -/
def JsonList.toList : JsonList → List JsonValue
  | .nil => []
  | .cons v t => v :: t.toList

/-- The key/value pairs of a JSON object, as a Lean list. -/
def JsonObj.toList : JsonObj → List (String × JsonValue)
  | .nil => []
  | .cons k v t => (k, v) :: t.toList

/-- First value bound to `k` in a JSON object (Python dicts have unique
keys, so first = only). -/
def JsonObj.find (o : JsonObj) (k : String) : Option JsonValue :=
  (o.toList.find? (fun kv => kv.1 = k)).map (fun kv => kv.2)

/-- Python truthiness of a JSON value (`bool(v)`). -/
def jsonTruthy : JsonValue → Bool
  | .null => false
  | .bool b => b
  | .num n => n ≠ 0
  | .str s => s ≠ ""
  | .arr items => !items.toList.isEmpty
  | .obj fields => !fields.toList.isEmpty

/-! ### Python-level operations on JSON, in the `Except` monad

`Except.error` models a raised Python exception; the error string names the
exception. -/

/-- Substring test on character lists (Python `needle in hay` for strings). -/
def hasSubList (needle hay : List Char) : Bool :=
  (hay.tails).any (fun t => needle.isPrefixOf t)

/-- Python `k in v` for a string `k` and JSON value `v`: key membership for
dicts, element membership for lists, substring for strings; `TypeError`
otherwise. -/
def jsonHasKey (k : String) : JsonValue → Except String Bool
  | .obj fields => .ok (fields.toList.any (fun kv => kv.1 = k))
  | .arr items => .ok (items.toList.any (fun v =>
      match v with
      | .str s => s = k
      | _ => false))
  | .str s => .ok (hasSubList k.data s.data)
  | _ => .error "TypeError: argument of type is not iterable"

/-- Python `v[k]` for a string key: dict lookup (`KeyError` when absent),
`TypeError` on any non-dict. -/
def jsonGetKey (v : JsonValue) (k : String) : Except String JsonValue :=
  match v with
  | .obj fields =>
    match fields.find k with
    | some x => .ok x
    | none => .error "KeyError"
  | _ => .error "TypeError: indices must not be str"

/-- Python `v[i]` for a natural index: list indexing (`IndexError` when out
of range), single-character string for strings, `TypeError` otherwise. -/
def jsonGetIdx (v : JsonValue) (i : Nat) : Except String JsonValue :=
  match v with
  | .arr items =>
    match items.toList.get? i with
    | some x => .ok x
    | none => .error "IndexError"
  | .str s =>
    match s.data.get? i with
    | some c => .ok (.str ⟨[c]⟩)
    | none => .error "IndexError"
  | _ => .error "TypeError: object is not subscriptable"

/-- Python `len(v)`: length for lists and strings, key count for dicts,
`TypeError` otherwise. -/
def jsonLen (v : JsonValue) : Except String Nat :=
  match v with
  | .arr items => .ok items.toList.length
  | .str s => .ok s.data.length
  | .obj fields => .ok fields.toList.length
  | _ => .error "TypeError: object has no len"

/-- Python `v.get(k, default)`: defined only on dicts (`AttributeError`
otherwise). -/
def jsonGetD (v : JsonValue) (k : String) (default : JsonValue) :
    Except String JsonValue :=
  match v with
  | .obj fields =>
    match fields.find k with
    | some x => .ok x
    | none => .ok default
  | _ => .error "AttributeError: object has no attribute get"

/-! ### `modules/medical_api.py`

Each lookup performs one `requests.get`; its outcome is an explicit input. -/

/-- Outcome of one `requests.get` call:
* `resp status body` — a response whose body parses as JSON `body`;
* `badJson status` — a response whose body is not valid JSON, so that
  `r.json()` raises;
* `netErr` — `requests.get` itself raises (timeout, connection error). -/
inductive HttpResult where
  | resp (status : Nat) (body : JsonValue)
  | badJson (status : Nat)
  | netErr

/-- `fetch_rxnorm_id` (medical_api.py lines 8–20).  No `try`/`except` in the
source: any exception propagates to the caller, modelled as `Except.error`.
Returns `data["idGroup"]["rxnormId"][0]` when present, else `None`. -/
def fetch_rxnorm_id (drug_name : String) (h : HttpResult) :
    Except String (Option JsonValue) :=
  match h with
  | .netErr => .error "requests.get raised"
  | .badJson status =>
    if status ≠ 200 then .ok none else .error "r.json raised"
  | .resp status body =>
    if status ≠ 200 then .ok none
    else do
      let hasIdGroup ← jsonHasKey "idGroup" body
      if hasIdGroup then do
        let idGroup ← jsonGetKey body "idGroup"
        let hasRx ← jsonHasKey "rxnormId" idGroup
        if hasRx then do
          let rx ← jsonGetKey idGroup "rxnormId"
          let v ← jsonGetIdx rx 0
          pure (some v)
        else pure none
      else pure none

/-- The record built by `fetch_dailymed_summary` from the first SPL match. -/
structure DailymedRecord where
  title : JsonValue
  setid : JsonValue
  published_date : JsonValue

/-- `fetch_dailymed_summary` (medical_api.py lines 27–46).  No
`try`/`except` in the source: any exception propagates, modelled as
`Except.error`. -/
def fetch_dailymed_summary (drug_name : String) (h : HttpResult) :
    Except String (Option DailymedRecord) :=
  match h with
  | .netErr => .error "requests.get raised"
  | .badJson status =>
    if status ≠ 200 then .ok none else .error "r.json raised"
  | .resp status body =>
    if status ≠ 200 then .ok none
    else do
      let hasData ← jsonHasKey "data" body
      if !hasData then pure none
      else do
        let d ← jsonGetKey body "data"
        let n ← jsonLen d
        if n = 0 then pure none
        else do
          let spl ← jsonGetIdx d 0
          let title ← jsonGetD spl "title" .null
          let setid ← jsonGetD spl "setid" .null
          let published ← jsonGetD spl "published_date" .null
          pure (some ⟨title, setid, published⟩)

/-- Body of the `for info in concept_groups` loop of `fetch_drug_classes`:
`info.get("rxclassMinConceptItem", {}).get("className")`, appended when
truthy and not already present.  A non-dict `info` raises
(`AttributeError`), which the enclosing `try` turns into `[]`.  Non-string
truthy class names are outside the modelled scope (the API returns strings)
and are skipped. -/
def collectClasses : List JsonValue → List String → Except String (List String)
  | [], acc => .ok acc
  | info :: rest, acc => do
    let item ← jsonGetD info "rxclassMinConceptItem" (.obj .nil)
    let className ← jsonGetD item "className" .null
    match className with
    | .str s =>
      if s ≠ "" ∧ s ∉ acc then collectClasses rest (acc ++ [s])
      else collectClasses rest acc
    | _ => collectClasses rest acc

/-- The `try` body of `fetch_drug_classes` (medical_api.py lines 53–81). -/
def fetch_drug_classes_core (drug_name : String) (h : HttpResult) :
    Except String (List String) :=
  match h with
  | .netErr => .error "requests.get raised"
  | .badJson status =>
    if status ≠ 200 then .ok [] else .error "r.json raised"
  | .resp status body =>
    if status ≠ 200 then .ok []
    else do
      let outer ← jsonGetD body "rxclassDrugInfoList" (.obj .nil)
      let groups ← jsonGetD outer "rxclassDrugInfo" (.arr .nil)
      match groups with
      | .arr items => collectClasses items.toList []
      | _ => .error "TypeError: object is not iterable"

/-- `fetch_drug_classes`: the whole body sits in `try: ... except
Exception: return []`, so the function is total and never raises. -/
def fetch_drug_classes (drug_name : String) (h : HttpResult) : List String :=
  match fetch_drug_classes_core drug_name h with
  | .ok l => l
  | .error _ => []

/-- Inner `for drug in drugs` loop of `fetch_openfda_interactions`:
`name = drug.get("medicinalproduct", "")`; appended when truthy, not equal
to the query drug case-insensitively, and not already present.  A truthy
non-string `name` raises at `name.lower()` (`AttributeError`), faithfully
an error here. -/
def collectFdaNames (drug_name : String) :
    List JsonValue → List String → Except String (List String)
  | [], acc => .ok acc
  | drug :: rest, acc => do
    let nameV ← jsonGetD drug "medicinalproduct" (.str "")
    match nameV with
    | .str s =>
      if s ≠ "" ∧ pyLower s ≠ pyLower drug_name ∧ s ∉ acc then
        collectFdaNames drug_name rest (acc ++ [s])
      else collectFdaNames drug_name rest acc
    | .null => collectFdaNames drug_name rest acc
    | .bool false => collectFdaNames drug_name rest acc
    | .num 0 => collectFdaNames drug_name rest acc
    | _ => .error "AttributeError: object has no attribute lower"

/-- Outer `for result in results` loop of `fetch_openfda_interactions`. -/
def collectFdaResults (drug_name : String) :
    List JsonValue → List String → Except String (List String)
  | [], acc => .ok acc
  | result :: rest, acc => do
    let patient ← jsonGetD result "patient" (.obj .nil)
    let drugs ← jsonGetD patient "drug" (.arr .nil)
    match drugs with
    | .arr items => do
      let acc2 ← collectFdaNames drug_name items.toList acc
      collectFdaResults drug_name rest acc2
    | _ => .error "TypeError: object is not iterable"

/-- The `try` body of `fetch_openfda_interactions` (medical_api.py lines
88–120). -/
def fetch_openfda_interactions_core (drug_name : String) (h : HttpResult) :
    Except String (List String) :=
  match h with
  | .netErr => .error "requests.get raised"
  | .badJson status =>
    if status ≠ 200 then .ok [] else .error "r.json raised"
  | .resp status body =>
    if status ≠ 200 then .ok []
    else do
      let results ← jsonGetD body "results" (.arr .nil)
      match results with
      | .arr items => collectFdaResults drug_name items.toList []
      | _ => .error "TypeError: object is not iterable"

/-- `fetch_openfda_interactions`: whole body wrapped in `try: ... except
Exception: return []`, so total and never raises. -/
def fetch_openfda_interactions (drug_name : String) (h : HttpResult) :
    List String :=
  match fetch_openfda_interactions_core drug_name h with
  | .ok l => l
  | .error _ => []

/-! ### Python `round` over `ℚ`

`round(x, d)` rounds half-to-even.  Modelled over the rationals (the Python
floats the scorer produces are not re-modelled bit-for-bit; every value a
claim checks is exactly representable). -/

/-- Round half-to-even to an integer. -/
def roundHalfEven (q : ℚ) : ℤ :=
  let f := ⌊q⌋
  let r := q - f
  if r < 1/2 then f
  else if 1/2 < r then f + 1
  else if f % 2 = 0 then f else f + 1

/-- Python `round(q, d)`. -/
def pyRound (q : ℚ) (d : Nat) : ℚ :=
  (roundHalfEven (q * 10 ^ d) : ℚ) / 10 ^ d

/-! ### `modules/confidence_scorer.py` -/

/-- `KNOWN_ABBREVIATIONS` (confidence_scorer.py lines 22–28). -/
def KNOWN_ABBREVIATIONS : List String :=
  ["mbc", "cad", "dm", "htn", "ckd", "copd", "chf", "dvt",
   "pe", "uti", "acs", "mi", "cva", "tia", "gerd", "ibs",
   "ra", "oa", "sle", "ms", "tb", "hiv", "aids", "bph",
   "afib", "pvd", "pad", "ards", "ild", "nsclc", "sclc",
   "aml", "all", "cml", "cll", "dlbcl", "nhl", "hl"]

/-- `CONFIDENCE_LEVELS` (confidence_scorer.py line 30). -/
def CONFIDENCE_LEVELS : List String := ["Low", "Medium", "High"]

/-- Maximal runs of ASCII letters: `re.findall(r'[A-Za-z]+', ·)`.
The accumulator holds the current run, reversed. -/
def alphaRunsAux : List Char → List Char → List (List Char)
  | cur, [] => if cur.isEmpty then [] else [cur.reverse]
  | cur, c :: rest =>
    if isAsciiAlpha c then alphaRunsAux (c :: cur) rest
    else if cur.isEmpty then alphaRunsAux [] rest
    else cur.reverse :: alphaRunsAux [] rest

/-- `re.findall(r'[A-Za-z]+', s)`. -/
def alphaTokens (s : String) : List String :=
  (alphaRunsAux [] s.data).map (fun l => ⟨l⟩)

/-- Python `str.isupper()`: at least one cased character and no lower-case
cased character.  ASCII fidelity (the scorer only applies it to `[A-Za-z]+`
tokens, where this is exact). -/
def pyIsUpper (s : String) : Bool :=
  s.data.any isAsciiAlpha && s.data.all (fun c => !('a' ≤ c && c ≤ 'z'))

/-- A `{level, reason}` pair as returned by `_score_diagnosis`. -/
structure ScoreResult where
  level : String
  reason : String
deriving DecidableEq

/-- `_score_diagnosis` (confidence_scorer.py lines 37–74). -/
def scoreDiagnosis : Option String → ScoreResult
  | none => ⟨"Low", "No diagnosis found in prescription"⟩
  | some d =>
    if d = "" ∨ pyStrip d = "" then
      ⟨"Low", "No diagnosis found in prescription"⟩
    else
      let text := pyStrip d
      let tokens := alphaTokens text
      let isAbbreviation :=
        tokens.length ≤ 2 &&
          tokens.all (fun t =>
            pyIsUpper t || KNOWN_ABBREVIATIONS.contains (pyLower t))
      if isAbbreviation then
        ⟨"Medium", "Abbreviation detected: \"" ++ text ++ "\""⟩
      else if 5 < text.length then
        ⟨"High", "Full explicit diagnosis text"⟩
      else
        ⟨"Medium", "Short diagnosis text: \"" ++ text ++ "\""⟩

/-- A medication dict.  Only the `"name"` key is read by the scorer and the
interaction checker; `none` covers both a missing key and an explicit
`None`. -/
structure MedDict where
  name : Option String

/-- `med.get("name", "")`. -/
def nameOrEmpty (m : MedDict) : String :=
  m.name.getD ""

/-- One per-drug entry of `medication_scores`. -/
structure MedScore where
  name : String
  normalization : String
  rxnorm_match : Bool
  dailymed_match : Bool
  reason : String

/-- One per-drug entry of `api_results`. -/
structure ApiResult where
  drug : String
  rxnorm_id : Option JsonValue
  dailymed_info : Option DailymedRecord

/-- Python truthiness of a fetched RxNorm id (`None` and `""` are falsy). -/
def rxTruthy : Option JsonValue → Bool
  | none => false
  | some v => jsonTruthy v

/-- Loop body of `_score_medications` for one medication.  The external
lookups are explicit oracle inputs; a returned DailyMed dict always has
three keys, hence is always truthy. -/
def scoreOneMed (fetchRx : String → Option JsonValue)
    (fetchDm : String → Option DailymedRecord) (med : MedDict) :
    MedScore × ApiResult :=
  let name := nameOrEmpty med
  let rxId := fetchRx name
  let dailymed := fetchDm name
  let apiResult : ApiResult := ⟨name, rxId, dailymed⟩
  let rxT := rxTruthy rxId
  let dmT := dailymed.isSome
  let (level, reason) :=
    if rxT && dmT then ("High", "Matched in RxNorm and DailyMed")
    else if rxT || dmT then
      ("Medium",
        "Partial match (RxNorm: " ++ (if rxT then "✓" else "✗") ++
          ", DailyMed: " ++ (if dmT then "✓" else "✗") ++ ")")
    else ("Low", "No match in RxNorm or DailyMed")
  (⟨name, level, rxId.isSome, dailymed.isSome, reason⟩, apiResult)

/-- `_score_medications` (confidence_scorer.py lines 81–124).  The early
return for an empty input coincides with the fold over `[]`. -/
def scoreMedications (medications : List MedDict)
    (fetchRx : String → Option JsonValue)
    (fetchDm : String → Option DailymedRecord) :
    List MedScore × List ApiResult :=
  (medications.map (scoreOneMed fetchRx fetchDm)).unzip

/-- `_compute_grounding_coverage` (confidence_scorer.py lines 131–144). -/
def computeGroundingCoverage (api_results : List ApiResult) : ℚ :=
  match api_results with
  | [] => 0
  | _ =>
    let grounded :=
      (api_results.filter
        (fun r => rxTruthy r.rxnorm_id || r.dailymed_info.isSome)).length
    pyRound ((grounded : ℚ) / api_results.length * 100) 1

/-- `_level_to_rank` (confidence_scorer.py lines 151–152). -/
def levelToRank (level : String) : Nat :=
  if CONFIDENCE_LEVELS.contains level then CONFIDENCE_LEVELS.indexOf level
  else 0

/-- `_rank_to_level` (confidence_scorer.py lines 155–156). -/
def rankToLevel (rank : Nat) : String :=
  CONFIDENCE_LEVELS.getD (min rank (CONFIDENCE_LEVELS.length - 1)) "Low"

/-- The fields of `prescription_data` the scorer reads. -/
structure Prescription where
  diagnosis : Option String
  medications : Option (List MedDict)

/-- The confidence dict built by `compute_confidence`. -/
structure Confidence where
  diagnosis_confidence : String
  diagnosis_reason : String
  medication_scores : List MedScore
  api_grounding_coverage : ℚ
  overall_confidence : String

/-- `compute_confidence` (confidence_scorer.py lines 163–205).
`prescription_data.get("medications", []) or []` collapses a missing key
and `None` to `[]` (`Option.getD`).  The Python `min` over the non-empty
rank list is the fold of `min` from the head. -/
def compute_confidence (p : Prescription)
    (fetchRx : String → Option JsonValue)
    (fetchDm : String → Option DailymedRecord) :
    Confidence × List ApiResult :=
  let diagnosisScore := scoreDiagnosis p.diagnosis
  let medications := p.medications.getD []
  let (medScores, apiResults) := scoreMedications medications fetchRx fetchDm
  let groundingCoverage := computeGroundingCoverage apiResults
  let allLevels := diagnosisScore.level :: medScores.map (fun s => s.normalization)
  let overall :=
    match allLevels with
    | [] => "Low"
    | l :: ls =>
      rankToLevel (ls.foldl (fun a x => min a (levelToRank x)) (levelToRank l))
  (⟨diagnosisScore.level, diagnosisScore.reason, medScores,
    groundingCoverage, overall⟩, apiResults)

/-! ### `modules/drug_interaction_checker.py` -/

/-- `[m.get("name", "") for m in medications if m.get("name")]`:
the names that are present and truthy (non-empty). -/
def medNamesOf (medications : List MedDict) : List String :=
  medications.filterMap (fun m =>
    match m.name with
    | some s => if s ≠ "" then some s else none
    | none => none)

/-- `itertools.combinations(l, 2)`, in order. -/
def pairsOf {α : Type} : List α → List (α × α)
  | [] => []
  | x :: xs => (xs.map (fun y => (x, y))) ++ pairsOf xs

/-- Outcome of the LLM interaction-analysis call, covering the whole `try`
block of `check_interactions`:
* `parsed interactions summary` — `llm.invoke` returned, code fences were
  stripped, `json.loads` succeeded, and `result.get("interactions", [])` /
  `result.get("summary", "")` produced the given list and string;
* `invalidJson` — `json.loads` raised `json.JSONDecodeError`;
* `failure` — any other exception inside the `try` block (network error,
  collaborator exception, a non-list `interactions` value raising at
  `len`). -/
inductive LLMOutcome where
  | parsed (interactions : List JsonValue) (summary : String)
  | invalidJson
  | failure

/-- `LLMOutcome.parsed` recogniser (used only to state theorems). -/
def LLMOutcome.isParsed : LLMOutcome → Bool
  | .parsed _ _ => true
  | _ => false

/-- The dict returned by `check_interactions`.  `none` in `summary`,
`drug_classes` and `error` means the key is absent from the dict. -/
structure InteractionReport where
  interactions : List JsonValue
  total_checked : Nat
  interactions_found : Nat
  summary : Option String
  drug_classes : Option (List (String × List String))
  error : Option String
  disclaimer : String

/-- `check_interactions` together with a record of the external calls it
made, so that "no network/LLM call" is a provable statement. -/
structure CheckOutcome where
  report : InteractionReport
  classFetchCalls : List String
  eventFetchCalls : List String
  llmCalled : Bool

/-- `check_interactions` (drug_interaction_checker.py lines 93–191).  The
two reference-data oracles and the LLM outcome are explicit inputs.  The
Python dicts `drug_classes` and `fda_signals` are modelled as association
lists in insertion order. -/
def check_interactions (medications : List MedDict)
    (fetchClasses : String → List String)
    (fetchEvents : String → List String)
    (llm : LLMOutcome) : CheckOutcome :=
  if medications.length < 2 then
    { report :=
        { interactions := []
          total_checked := match medications with | [] => 0 | _ => medications.length
          interactions_found := 0
          summary := none
          drug_classes := none
          error := none
          disclaimer := "Interaction detection is advisory only." }
      classFetchCalls := []
      eventFetchCalls := []
      llmCalled := false }
  else
    let medNames := medNamesOf medications
    if medNames.length < 2 then
      { report :=
          { interactions := []
            total_checked := medNames.length
            interactions_found := 0
            summary := none
            drug_classes := none
            error := none
            disclaimer := "Interaction detection is advisory only." }
        classFetchCalls := []
        eventFetchCalls := []
        llmCalled := false }
    else
      let drugClasses := medNames.map (fun n =>
        let classes := fetchClasses n
        (n, if classes.isEmpty then ["Unknown"] else classes))
      let _fdaSignals :=
        (medNames.map (fun n => (n, fetchEvents n))).filter
          (fun p => !p.2.isEmpty)
      match llm with
      | .parsed interactions summary =>
        { report :=
            { interactions := interactions
              total_checked := (pairsOf medNames).length
              interactions_found := interactions.length
              summary := some summary
              drug_classes := some drugClasses
              error := none
              disclaimer := "Interaction detection is advisory only. Do not treat as definitive medical advice." }
          classFetchCalls := medNames
          eventFetchCalls := medNames
          llmCalled := true }
      | .invalidJson =>
        { report :=
            { interactions := []
              total_checked := (pairsOf medNames).length
              interactions_found := 0
              summary := none
              drug_classes := none
              error := some "Failed to parse interaction analysis"
              disclaimer := "Interaction detection is advisory only." }
          classFetchCalls := medNames
          eventFetchCalls := medNames
          llmCalled := true }
      | .failure =>
        { report :=
            { interactions := []
              total_checked := 0
              interactions_found := 0
              summary := none
              drug_classes := none
              error := some "Interaction check failed"
              disclaimer := "Interaction detection is advisory only." }
          classFetchCalls := medNames
          eventFetchCalls := medNames
          llmCalled := true }

/-! ### `modules/evaluation.py` — parsing F1 -/

mutual

/-- Python `str(v)` for a JSON value (`str` of a string is the string
itself; containers render via `repr` of their elements). -/
def pyStr : JsonValue → String
  | .null => "None"
  | .bool true => "True"
  | .bool false => "False"
  | .num n => toString n
  | .str s => s
  | .arr items => "[" ++ pyReprList items ++ "]"
  | .obj fields => "\x7b" ++ pyReprObj fields ++ "\x7d"

/-- Python `repr(v)` for a JSON value (strings gain quotes). -/
def pyRepr : JsonValue → String
  | .null => "None"
  | .bool true => "True"
  | .bool false => "False"
  | .num n => toString n
  | .str s => "\x27" ++ s ++ "\x27"
  | .arr items => "[" ++ pyReprList items ++ "]"
  | .obj fields => "\x7b" ++ pyReprObj fields ++ "\x7d"

/-- Comma-joined `repr`s of list elements. -/
def pyReprList : JsonList → String
  | .nil => ""
  | .cons v .nil => pyRepr v
  | .cons v t => pyRepr v ++ ", " ++ pyReprList t

/-- Comma-joined `repr(key): repr(value)` pairs of a dict. -/
def pyReprObj : JsonObj → String
  | .nil => ""
  | .cons k v .nil => "\x27" ++ k ++ "\x27: " ++ pyRepr v
  | .cons k v t => "\x27" ++ k ++ "\x27: " ++ pyRepr v ++ ", " ++ pyReprObj t

end

/-- `str(item).lower().strip()`. -/
def leafStr (v : JsonValue) : String :=
  pyStrip (pyLower (pyStr v))

mutual

/-- `_extract_field_set` (evaluation.py lines 38–56) over a dict, as the
list of contributed leaf strings in iteration order (the Python `set` is
recovered by deduplication). -/
def extractObj : JsonObj → List String
  | .nil => []
  | .cons _ v t => extractDictValue v ++ extractObj t

/-- Contribution of one dict value: `None` is skipped, a dict recurses, a
list iterates, any other value is a leaf. -/
def extractDictValue : JsonValue → List String
  | .null => []
  | .obj fields => extractObj fields
  | .arr items => extractListItems items
  | v => [leafStr v]

/-- Contribution of list items: a dict recurses, `None` is skipped, any
other item (including a nested list) is stringified as a leaf. -/
def extractListItems : JsonList → List String
  | .nil => []
  | .cons item t =>
    (match item with
     | .obj fields => extractObj fields
     | .null => []
     | v => [leafStr v]) ++ extractListItems t

end

/-- The dict returned by `compute_parsing_f1` (`recallVal` models the
`"recall"` key; `recall` is reserved in this Lean environment). -/
structure F1Result where
  precision : ℚ
  recallVal : ℚ
  f1 : ℚ
  matched : Nat
  predicted_count : Nat
  truth_count : Nat
deriving DecidableEq

/-- `compute_parsing_f1` (evaluation.py lines 59–97).  A Python set is
modelled as a deduplicated list; only membership and cardinality are
used. -/
def compute_parsing_f1 (predicted ground_truth : JsonObj) : F1Result :=
  let predValues := (extractObj predicted).dedup
  let truthValues := (extractObj ground_truth).dedup
  if predValues.isEmpty && truthValues.isEmpty then
    ⟨1, 1, 1, 0, 0, 0⟩
  else
    let matched := (predValues.filter (fun v => v ∈ truthValues)).length
    let precision :=
      if !predValues.isEmpty then (matched : ℚ) / predValues.length else 0
    let recallV :=
      if !truthValues.isEmpty then (matched : ℚ) / truthValues.length else 0
    let f1 :=
      if 0 < precision + recallV then
        2 * precision * recallV / (precision + recallV)
      else 0
    ⟨pyRound precision 3, pyRound recallV 3, pyRound f1 3,
      matched, predValues.length, truthValues.length⟩

/-! ### `modules/evaluation.py` — hallucination detection -/

/-- Outcome of the LLM fact-checking call, covering the whole `try` block
of `detect_hallucinations`:
* `parsed h c g n` — `json.loads` succeeded on the (fence-stripped) reply;
  each field is the value found under the corresponding key, or `none`
  when the key is absent (the code applies `result.get` defaults);
* `invalidJson` — `json.loads` raised `json.JSONDecodeError`;
* `failure` — any other exception inside the `try` block. -/
inductive DetectorLLM where
  | parsed (hallucinations : Option (List JsonValue)) (count : Option Int)
      (isGrounded : Option Bool) (notes : Option String)
  | invalidJson
  | failure

/-- `DetectorLLM.parsed` recogniser (used only to state theorems). -/
def DetectorLLM.isParsed : DetectorLLM → Bool
  | .parsed _ _ _ _ => true
  | _ => false

/-- The dict returned by `detect_hallucinations`. -/
structure HallucinationReport where
  hallucinations : List JsonValue
  hallucination_count : Int
  is_grounded : Bool
  grounding_notes : String

/-- `detect_hallucinations` (evaluation.py lines 195–260), returning the
report together with whether the LLM collaborator was invoked.  The answer
emptiness test `not answer or not answer.strip()` is `answer = "" ∨
strip answer = ""`. -/
def detect_hallucinations (answer : String) (prescription : JsonObj)
    (api_data : List JsonValue) (llm : DetectorLLM) :
    HallucinationReport × Bool :=
  if answer = "" ∨ pyStrip answer = "" then
    (⟨[], 0, true, "No answer to evaluate"⟩, false)
  else
    match llm with
    | .parsed h c g n =>
      let hallucinations := h.getD []
      let count := c.getD (hallucinations.length : Int)
      let isGrounded := g.getD (decide (count = 0))
      (⟨hallucinations, count, isGrounded, n.getD ""⟩, true)
    | .invalidJson =>
      (⟨[], -1, false,
        "Hallucination detection failed (invalid LLM output)"⟩, true)
    | .failure =>
      (⟨[], -1, false, "Hallucination detection failed"⟩, true)

/-! ### Constants and predicates used by the theorem statements -/

/-- The short disclaimer carried by the fewer-than-two-names, invalid-JSON
and generic-failure reports. -/
def advisoryShort : String := "Interaction detection is advisory only."

/-- The full two-sentence disclaimer carried by the successful-analysis
report. -/
def advisoryFull : String :=
  "Interaction detection is advisory only. Do not treat as definitive medical advice."

/-- A character list in the image of whitespace collapsing: every
whitespace character is a plain space, and no two whitespace characters are
adjacent. -/
def Collapsed (l : List Char) : Prop :=
  (∀ c ∈ l, pyIsSpace c = true → c = ' ') ∧
    l.Chain' (fun a b => ¬(pyIsSpace a = true ∧ pyIsSpace b = true))

/-! ## Supporting lemmas -/

/-- `itertools.combinations(l, 2)` yields `C(|l|, 2)` pairs. -/
theorem pairsOf_length {α : Type} : ∀ l : List α,
    (pairsOf l).length = l.length.choose 2 := by
  intro l
  induction l with
  | nil => rfl
  | cons x xs ih =>
    simp only [pairsOf, List.length_append, List.length_map, ih,
      List.length_cons]
    rw [Nat.choose_succ_succ, Nat.choose_one_right]

/-- There are at most as many extracted names as medication entries. -/
theorem medNamesOf_length_le (meds : List MedDict) :
    (medNamesOf meds).length ≤ meds.length :=
  List.length_filterMap_le _ _

/-- Every confidence rank is at most 2. -/
theorem levelToRank_le_two (level : String) : levelToRank level ≤ 2 := by
  unfold levelToRank
  split
  · rename_i h
    have hm : level ∈ CONFIDENCE_LEVELS := by
      simpa using h
    have := List.indexOf_lt_length.mpr hm
    simpa [CONFIDENCE_LEVELS] using Nat.lt_succ_iff.mp this
  · exact Nat.zero_le 2

/-- Membership is preserved from `stripL l` back to `l`. -/
theorem mem_of_mem_stripL {c : Char} {l : List Char}
    (h : c ∈ stripL l) : c ∈ l := by
  unfold stripL dropTrailingSpace at h
  have h1 : c ∈ (l.dropWhile pyIsSpace).reverse.dropWhile pyIsSpace := by
    simpa using h
  have h2 := (List.dropWhile_suffix pyIsSpace).mem h1
  have h3 : c ∈ l.dropWhile pyIsSpace := by simpa using h2
  exact (List.dropWhile_suffix pyIsSpace).mem h3

/-- A string without ASCII letters has no `[A-Za-z]+` tokens (the current
run accumulator being letter-free as well). -/
theorem alphaRunsAux_eq_nil : ∀ l : List Char,
    (∀ c ∈ l, isAsciiAlpha c = false) → alphaRunsAux [] l = [] := by
  intro l h
  induction l with
  | nil => rfl
  | cons c rest ih =>
    have hc : isAsciiAlpha c = false := h c (by simp)
    simp only [alphaRunsAux, hc, Bool.false_eq_true, if_false, List.isEmpty_nil,
      if_true]
    exact ih (fun d hd => h d (by simp [hd]))

/-- Rounding an integer is the identity. -/
theorem roundHalfEven_intCast (n : ℤ) : roundHalfEven (n : ℚ) = n := by
  unfold roundHalfEven
  norm_num

/-- `round(1.0, 3) = 1.0`. -/
theorem pyRound_one_three : pyRound 1 3 = 1 := by
  have h : ((1 : ℚ) * 10 ^ 3) = ((1000 : ℤ) : ℚ) := by norm_num
  rw [pyRound, h, roundHalfEven_intCast]
  norm_num

/-- `round(0.0, 3) = 0.0`. -/
theorem pyRound_zero_three : pyRound 0 3 = 0 := by
  have h : ((0 : ℚ) * 10 ^ 3) = ((0 : ℤ) : ℚ) := by norm_num
  rw [pyRound, h, roundHalfEven_intCast]
  norm_num

/-! ## Claim C9 -/

/-- Claim C9: `compute_parsing_f1` returns precision = recall = f1 = 1.0
when both inputs flatten to empty leaf-value sets (`parsingF1({}, {})`);
all 1.0 for identical single-leaf inputs (`{"a": "x"}` twice); and all 0.0
for disjoint single-leaf inputs (`{"a": "x"}` vs `{"a": "y"}`), the
divisions being zero-guarded. -/
theorem C9_parsing_f1_base_cases :
    compute_parsing_f1 .nil .nil =
      ⟨1, 1, 1, 0, 0, 0⟩ ∧
    compute_parsing_f1 (.cons "a" (.str "x") .nil) (.cons "a" (.str "x") .nil) =
      ⟨1, 1, 1, 1, 1, 1⟩ ∧
    compute_parsing_f1 (.cons "a" (.str "x") .nil) (.cons "a" (.str "y") .nil) =
      ⟨0, 0, 0, 0, 1, 1⟩ := by
  have ex : (extractObj (.cons "a" (.str "x") .nil)).dedup = ["x"] := by decide
  have ey : (extractObj (.cons "a" (.str "y") .nil)).dedup = ["y"] := by decide
  refine ⟨rfl, ?_, ?_⟩
  · simp only [compute_parsing_f1, ex]
    norm_num [pyRound_one_three]
  · simp only [compute_parsing_f1, ex, ey]
    have hf : List.filter (fun v => decide (v = "y")) ["x"] = [] := by decide
    norm_num [pyRound_zero_three, hf]

/-! ## Claim C10 -/

/-- Claim C10: a non-empty, non-whitespace diagnosis with no alphabetic
characters is scored Medium with an "Abbreviation detected" reason: the
token list of `re.findall(r'[A-Za-z]+', ·)` is empty, so the ≤ 2-token
bound and the all-tokens condition hold vacuously and the length-based
branches are never reached. -/
theorem C10_nonalpha_diagnosis_is_medium (s : String)
    (hne : pyStrip s ≠ "") (halpha : ∀ c ∈ s.data, isAsciiAlpha c = false) :
    scoreDiagnosis (some s) =
      ⟨"Medium", "Abbreviation detected: \"" ++ pyStrip s ++ "\""⟩ := by
  have hs : s ≠ "" := by
    intro h
    exact hne (by simp [h, pyStrip, stripL, dropTrailingSpace])
  have hmem : ∀ c ∈ (pyStrip s).data, isAsciiAlpha c = false := by
    intro c hc
    have hc2 : c ∈ stripL s.data := hc
    exact halpha c (mem_of_mem_stripL hc2)
  have htok : alphaTokens (pyStrip s) = [] := by
    unfold alphaTokens
    rw [alphaRunsAux_eq_nil _ hmem]
    rfl
  simp only [scoreDiagnosis]
  rw [if_neg (by simp [hs, hne])]
  simp [htok]

/-- Witness for C10 at the concrete diagnosis `"123"`. -/
theorem C10_witness :
    scoreDiagnosis (some "123") =
      ⟨"Medium", "Abbreviation detected: \"123\""⟩ := by
  have h := C10_nonalpha_diagnosis_is_medium "123" (by decide) (by decide)
  exact h

/-! ## Claim C6 -/

/-- Claim C6: an empty or whitespace-only answer makes
`detect_hallucinations` return the constant report
`{hallucinations: [], hallucination_count: 0, is_grounded: true,
grounding_notes: "No answer to evaluate"}` without invoking the LLM
collaborator (`false` in the second component), for every prescription,
api_data and collaborator outcome — so neither input is read. -/
theorem C6_empty_answer_fast_path (answer : String) (p : JsonObj)
    (a : List JsonValue) (llm : DetectorLLM)
    (h : answer = "" ∨ pyStrip answer = "") :
    detect_hallucinations answer p a llm =
      (⟨[], 0, true, "No answer to evaluate"⟩, false) := by
  unfold detect_hallucinations
  rw [if_pos h]

/-- Witness for C6 at the whitespace answer `"   "`. -/
theorem C6_witness :
    detect_hallucinations "   " .nil [] .failure =
      (⟨[], 0, true, "No answer to evaluate"⟩, false) :=
  C6_empty_answer_fast_path "   " .nil [] .failure (Or.inr (by decide))

/-! ## Claim C4 -/

/-- Counterexample to claim C4: on a successfully parsed LLM reply that
reports `"hallucination_count": -1` (with no `is_grounded` key, so the
`count == 0` default also yields `false`), the detector returns
`count = -1` and `is_grounded = false` although it did not fail — so `-1`
is *not* returned exactly when the detector fails. -/
theorem C4_counterexample :
    (detect_hallucinations "x" .nil []
        (.parsed none (some (-1)) none none)).1.hallucination_count = -1 ∧
    (detect_hallucinations "x" .nil []
        (.parsed none (some (-1)) none none)).1.is_grounded = false ∧
    DetectorLLM.isParsed (.parsed none (some (-1)) none none) = true := by
  refine ⟨by decide, by decide, rfl⟩

/-- Claim C4 as amended: for every non-empty answer, detector failure
(invalid JSON or any other collaborator exception) yields
`hallucination_count = -1` and `is_grounded = false`; but on the
successfully-parsed path the count is whatever the LLM reported (default
`len(hallucinations)`), so `-1` can also be returned with a successful
parse when the LLM itself reports `-1`. -/
theorem C4_failure_sentinel (answer : String) (p : JsonObj)
    (a : List JsonValue) (h : ¬(answer = "" ∨ pyStrip answer = "")) :
    detect_hallucinations answer p a .invalidJson =
      (⟨[], -1, false,
        "Hallucination detection failed (invalid LLM output)"⟩, true) ∧
    detect_hallucinations answer p a .failure =
      (⟨[], -1, false, "Hallucination detection failed"⟩, true) ∧
    ∀ hs c g n,
      (detect_hallucinations answer p a
          (.parsed hs c g n)).1.hallucination_count =
        c.getD ((hs.getD []).length : Int) := by
  refine ⟨?_, ?_, ?_⟩
  · unfold detect_hallucinations
    rw [if_neg h]
  · unfold detect_hallucinations
    rw [if_neg h]
  · intro hs c g n
    unfold detect_hallucinations
    rw [if_neg h]

/-- Witness for C4 at the concrete answer `"x"`. -/
theorem C4_witness :
    detect_hallucinations "x" .nil [] .invalidJson =
      (⟨[], -1, false,
        "Hallucination detection failed (invalid LLM output)"⟩, true) ∧
    detect_hallucinations "x" .nil [] .failure =
      (⟨[], -1, false, "Hallucination detection failed"⟩, true) := by
  have h := C4_failure_sentinel "x" .nil [] (by decide)
  exact ⟨h.1, h.2.1⟩

/-! ## Claim C8 -/

/-- Counterexample to claim C8: the fewer-than-two-medications report
carries only the one-sentence disclaimer
`"Interaction detection is advisory only."`, not the two-sentence string
the claim names — so not every path carries the full constant. -/
theorem C8_counterexample :
    (check_interactions [] (fun _ => []) (fun _ => [])
        (.parsed [] "")).report.disclaimer ≠
      "Interaction detection is advisory only. Do not treat as definitive medical advice." := by
  decide

/-- Claim C8 as amended: every report carries a disclaimer, but the full
two-sentence string appears only on the successful-analysis path (two or
more named medications and a parsed LLM reply); the fewer-than-two-names,
invalid-JSON and generic-failure reports carry the shorter
`"Interaction detection is advisory only."`. -/
theorem C8_disclaimer_by_path (meds : List MedDict)
    (fc fe : String → List String) (llm : LLMOutcome) :
    (check_interactions meds fc fe llm).report.disclaimer =
      if 2 ≤ (medNamesOf meds).length ∧ llm.isParsed = true then advisoryFull
      else advisoryShort := by
  unfold check_interactions
  by_cases h1 : meds.length < 2
  · have hn : ¬ (2 ≤ (medNamesOf meds).length ∧ llm.isParsed = true) := by
      have := medNamesOf_length_le meds
      intro hc
      omega
    rw [if_pos h1, if_neg hn]
    rfl
  · rw [if_neg h1]
    dsimp only
    by_cases h2 : (medNamesOf meds).length < 2
    · have hn : ¬ (2 ≤ (medNamesOf meds).length ∧ llm.isParsed = true) := by
        intro hc
        omega
      rw [if_pos h2, if_neg hn]
      rfl
    · have hy : 2 ≤ (medNamesOf meds).length := by omega
      rw [if_neg h2]
      cases llm with
      | parsed i s =>
        rw [if_pos ⟨hy, rfl⟩]
        rfl
      | invalidJson =>
        rw [if_neg (by simp [LLMOutcome.isParsed])]
        rfl
      | failure =>
        rw [if_neg (by simp [LLMOutcome.isParsed])]
        rfl

/-! ## Claim C1 -/

/-- Counterexample to claim C1: with three named medications and a generic
collaborator failure (the `except Exception` path), `total_checked` is `0`,
not `C(3,2) = 3`; and with a duplicated name and a successful analysis,
`total_checked` is `C(3,2) = 3` although only two *distinct* drugs were
named (`C(2,2) = 1`). -/
theorem C1_counterexample :
    (check_interactions
        [⟨some "Warfarin"⟩, ⟨some "Aspirin"⟩, ⟨some "Ibuprofen"⟩]
        (fun _ => []) (fun _ => []) .failure).report.total_checked = 0 ∧
    Nat.choose 3 2 = 3 ∧
    (check_interactions
        [⟨some "Warfarin"⟩, ⟨some "Warfarin"⟩, ⟨some "Aspirin"⟩]
        (fun _ => []) (fun _ => []) (.parsed [] "")).report.total_checked = 3 ∧
    (medNamesOf [⟨some "Warfarin"⟩, ⟨some "Warfarin"⟩, ⟨some "Aspirin"⟩]).dedup.length = 2 := by
  refine ⟨by decide, by decide, by decide, by decide⟩

/-- Claim C1 as amended: with two or more named medications,
`total_checked` equals `C(n, 2)` where `n` counts the named medication
entries (with multiplicity, not distinct names), on both the
successful-analysis path and the invalid-JSON path; on any other
collaborator failure `total_checked` is `0`. -/
theorem C1_total_checked (meds : List MedDict)
    (fc fe : String → List String)
    (h : 2 ≤ (medNamesOf meds).length) :
    (∀ i s, (check_interactions meds fc fe (.parsed i s)).report.total_checked =
        ((medNamesOf meds).length).choose 2) ∧
    (check_interactions meds fc fe .invalidJson).report.total_checked =
      ((medNamesOf meds).length).choose 2 ∧
    (check_interactions meds fc fe .failure).report.total_checked = 0 := by
  have h1 : ¬ meds.length < 2 := by
    have := medNamesOf_length_le meds
    omega
  have h2 : ¬ (medNamesOf meds).length < 2 := by omega
  refine ⟨fun i s => ?_, ?_, ?_⟩
  · unfold check_interactions
    rw [if_neg h1]
    dsimp only
    rw [if_neg h2]
    simp [pairsOf_length]
  · unfold check_interactions
    rw [if_neg h1]
    dsimp only
    rw [if_neg h2]
    simp [pairsOf_length]
  · unfold check_interactions
    rw [if_neg h1]
    dsimp only
    rw [if_neg h2]

/-- Witness for C1 at three concrete named medications. -/
theorem C1_witness :
    (check_interactions
        [⟨some "Warfarin"⟩, ⟨some "Aspirin"⟩, ⟨some "Ibuprofen"⟩]
        (fun _ => []) (fun _ => []) (.parsed [] "ok")).report.total_checked =
      Nat.choose 3 2 := by
  have h := C1_total_checked
    [⟨some "Warfarin"⟩, ⟨some "Aspirin"⟩, ⟨some "Ibuprofen"⟩]
    (fun _ => []) (fun _ => []) (by decide)
  exact h.1 [] "ok"

/-! ## Claim C5 -/

/-- Counterexample to claim C5: a single medication entry whose name is the
empty string has zero named medications, yet `total_checked` is `1` (the
entry count), not `0` (the named count). -/
theorem C5_counterexample :
    (check_interactions [⟨some ""⟩] (fun _ => []) (fun _ => [])
        .failure).report.total_checked = 1 ∧
    (medNamesOf [⟨some ""⟩]).length = 0 := by
  refine ⟨by decide, by decide⟩

/-- Claim C5 as amended: with fewer than two named medications,
`check_interactions` returns an empty interactions list and performs no
drug-class fetch, no adverse-event fetch and no LLM call; `total_checked`
is the number of medication *entries* when there are fewer than two
entries, and the number of *named* medications otherwise. -/
theorem C5_few_medications (meds : List MedDict)
    (fc fe : String → List String) (llm : LLMOutcome)
    (h : (medNamesOf meds).length < 2) :
    (check_interactions meds fc fe llm).report.interactions = [] ∧
    (check_interactions meds fc fe llm).report.total_checked =
      (if meds.length < 2 then meds.length else (medNamesOf meds).length) ∧
    (check_interactions meds fc fe llm).report.interactions_found = 0 ∧
    (check_interactions meds fc fe llm).classFetchCalls = [] ∧
    (check_interactions meds fc fe llm).eventFetchCalls = [] ∧
    (check_interactions meds fc fe llm).llmCalled = false := by
  unfold check_interactions
  by_cases h1 : meds.length < 2
  · rw [if_pos h1]
    refine ⟨rfl, ?_, rfl, rfl, rfl, rfl⟩
    rw [if_pos h1]
    cases meds with
    | nil => rfl
    | cons m rest => rfl
  · rw [if_neg h1]
    dsimp only
    rw [if_pos h]
    refine ⟨rfl, ?_, rfl, rfl, rfl, rfl⟩
    rw [if_neg h1]

/-- Witness for C5 at the single unnamed medication `{"name": ""}`. -/
theorem C5_witness :
    (check_interactions [⟨some ""⟩] (fun _ => []) (fun _ => [])
        .failure).report.interactions = [] ∧
    (check_interactions [⟨some ""⟩] (fun _ => []) (fun _ => [])
        .failure).report.total_checked =
      (if ([⟨some ""⟩] : List MedDict).length < 2 then
        ([⟨some ""⟩] : List MedDict).length
      else (medNamesOf [⟨some ""⟩]).length) ∧
    (check_interactions [⟨some ""⟩] (fun _ => []) (fun _ => [])
        .failure).llmCalled = false := by
  have h := C5_few_medications [⟨some ""⟩] (fun _ => []) (fun _ => [])
    .failure (by decide)
  exact ⟨h.1, h.2.1, h.2.2.2.2.2⟩

/-! ## Claim C2 -/

/-- Counterexample to claim C2: `fetch_rxnorm_id` performs its
`requests.get` outside any `try`/`except`, so a timeout or network error
propagates to the caller instead of returning `None`. -/
theorem C2_counterexample :
    fetch_rxnorm_id "Warfarin" .netErr = .error "requests.get raised" := rfl

/-- Claim C2 as amended: `fetch_drug_classes` and
`fetch_openfda_interactions` (whose bodies sit inside
`try: ... except Exception: return []`) return `[]` on any non-2xx
response, timeout, network error or malformed payload and never raise;
`fetch_rxnorm_id` and `fetch_dailymed_summary` return `None` on a non-200
response but propagate an exception on a timeout or network error
(`requests.get` raises) and on a malformed payload of a 200 response
(`r.json()` raises). -/
theorem C2_lookup_failures (name : String) (status : Nat) (body : JsonValue) :
    (status ≠ 200 → fetch_rxnorm_id name (.resp status body) = .ok none) ∧
    (status ≠ 200 → fetch_dailymed_summary name (.resp status body) = .ok none) ∧
    (status ≠ 200 → fetch_drug_classes name (.resp status body) = []) ∧
    (status ≠ 200 → fetch_openfda_interactions name (.resp status body) = []) ∧
    fetch_drug_classes name .netErr = [] ∧
    fetch_openfda_interactions name .netErr = [] ∧
    fetch_drug_classes name (.badJson status) = [] ∧
    fetch_openfda_interactions name (.badJson status) = [] ∧
    fetch_rxnorm_id name .netErr = .error "requests.get raised" ∧
    fetch_dailymed_summary name .netErr = .error "requests.get raised" ∧
    fetch_rxnorm_id name (.badJson 200) = .error "r.json raised" ∧
    fetch_dailymed_summary name (.badJson 200) = .error "r.json raised" := by
  refine ⟨?_, ?_, ?_, ?_, rfl, rfl, ?_, ?_, rfl, rfl, rfl, rfl⟩
  · intro hs
    simp [fetch_rxnorm_id, hs]
  · intro hs
    simp [fetch_dailymed_summary, hs]
  · intro hs
    simp [fetch_drug_classes, fetch_drug_classes_core, hs]
  · intro hs
    simp [fetch_openfda_interactions, fetch_openfda_interactions_core, hs]
  · by_cases hs : status = 200 <;>
      simp [fetch_drug_classes, fetch_drug_classes_core, hs]
  · by_cases hs : status = 200 <;>
      simp [fetch_openfda_interactions, fetch_openfda_interactions_core, hs]

/-- Witness for C2 at a concrete 404 outcome. -/
theorem C2_witness :
    fetch_rxnorm_id "Warfarin" (.resp 404 .null) = .ok none ∧
    fetch_dailymed_summary "Warfarin" (.resp 404 .null) = .ok none ∧
    fetch_drug_classes "Warfarin" (.resp 404 .null) = [] ∧
    fetch_openfda_interactions "Warfarin" (.resp 404 .null) = [] := by
  have h := C2_lookup_failures "Warfarin" 404 .null
  exact ⟨h.1 (by decide), h.2.1 (by decide), h.2.2.1 (by decide),
    h.2.2.2.1 (by decide)⟩

/-! ## Claim C3 -/

/-- Claim C3: the overall confidence equals the minimum level, under the
ordering Low < Medium < High, across the reported diagnosis level and
every reported medication score level (the fold of `min` over the ranks,
started at the top rank 2, re-encoded as a level); and a prescription with
no diagnosis and no medications yields overall "Low". -/
theorem C3_overall_is_min (p : Prescription)
    (frx : String → Option JsonValue)
    (fdm : String → Option DailymedRecord) :
    (compute_confidence p frx fdm).1.overall_confidence =
      rankToLevel
        ((((compute_confidence p frx fdm).1.diagnosis_confidence ::
            (compute_confidence p frx fdm).1.medication_scores.map
              (fun s => s.normalization)).map levelToRank).foldl min 2) ∧
    ((p.diagnosis = none ∧ p.medications.getD [] = []) →
      (compute_confidence p frx fdm).1.overall_confidence = "Low") := by
  constructor
  · simp only [compute_confidence]
    rw [List.map_cons, List.foldl_cons, List.foldl_map, List.foldl_map]
    rw [min_eq_right (levelToRank_le_two _)]
    rw [List.foldl_map]
  · rintro ⟨hd, hm⟩
    simp [compute_confidence, hd, hm, scoreMedications, scoreDiagnosis,
      rankToLevel, levelToRank, CONFIDENCE_LEVELS]

/-- Witness for C3 at the empty prescription. -/
theorem C3_witness :
    (compute_confidence ⟨none, none⟩ (fun _ => none)
        (fun _ => none)).1.overall_confidence = "Low" := by
  have h := C3_overall_is_min ⟨none, none⟩ (fun _ => none) (fun _ => none)
  exact h.2 ⟨rfl, rfl⟩

/-! ## Claim C7 — supporting lemmas -/

/-- NFKD is the identity (ASCII-fidelity model). -/
theorem nfkdL_id (l : List Char) : nfkdL l = l := by
  induction l with
  | nil => rfl
  | cons c rest ih => simpa [nfkdL, nfkdChar] using ih

/-- `Char.ofNat` of a valid code point round-trips through `toNat`. -/
theorem toNat_ofNat_valid (n : Nat) (h : n.isValidChar) :
    (Char.ofNat n).toNat = n := by
  simp [Char.ofNat, h, Char.ofNatAux, Char.toNat, UInt32.toNat,
    BitVec.toNat_ofNatLt]

/-- Python lower-casing of a character is idempotent. -/
theorem pyLowerChar_idem (c : Char) :
    pyLowerChar (pyLowerChar c) = pyLowerChar c := by
  unfold pyLowerChar
  by_cases h : 65 ≤ c.toNat ∧ c.toNat ≤ 90
  · rw [if_pos h]
    have hv : (c.toNat + 32).isValidChar := by
      left
      omega
    have ht : (Char.ofNat (c.toNat + 32)).toNat = c.toNat + 32 :=
      toNat_ofNat_valid _ hv
    rw [if_neg]
    rw [ht]
    omega
  · rw [if_neg h, if_neg h]

/-- Characters emitted by whitespace collapsing are spaces or come from the
input. -/
theorem mem_collapseAux {c : Char} : ∀ (b : Bool) (l : List Char),
    c ∈ collapseAux b l → c = ' ' ∨ c ∈ l := by
  intro b l
  induction l generalizing b with
  | nil => intro h; cases h
  | cons d rest ih =>
    intro h
    by_cases hd : pyIsSpace d = true
    · cases b with
      | true =>
        have h2 : c ∈ collapseAux true rest := by
          simpa [collapseAux, hd] using h
        rcases ih true h2 with h3 | h3
        · exact Or.inl h3
        · exact Or.inr (List.mem_cons_of_mem d h3)
      | false =>
        have h2 : c = ' ' ∨ c ∈ collapseAux true rest := by
          simpa [collapseAux, hd] using h
        rcases h2 with h3 | h3
        · exact Or.inl h3
        · rcases ih true h3 with h4 | h4
          · exact Or.inl h4
          · exact Or.inr (List.mem_cons_of_mem d h4)
    · have hdf : pyIsSpace d = false := by simpa using hd
      have h2 : c = d ∨ c ∈ collapseAux false rest := by
        simpa [collapseAux, hdf] using h
      rcases h2 with h3 | h3
      · exact Or.inr (by simp [h3])
      · rcases ih false h3 with h4 | h4
        · exact Or.inl h4
        · exact Or.inr (List.mem_cons_of_mem d h4)

/-- Every whitespace character emitted by collapsing is a plain space. -/
theorem collapseAux_space {c : Char} : ∀ (b : Bool) (l : List Char),
    c ∈ collapseAux b l → pyIsSpace c = true → c = ' ' := by
  intro b l
  induction l generalizing b with
  | nil => intro h _; cases h
  | cons d rest ih =>
    intro h hc
    by_cases hd : pyIsSpace d = true
    · cases b with
      | true =>
        exact ih true (by simpa [collapseAux, hd] using h) hc
      | false =>
        have h2 : c = ' ' ∨ c ∈ collapseAux true rest := by
          simpa [collapseAux, hd] using h
        rcases h2 with h3 | h3
        · exact h3
        · exact ih true h3 hc
    · have hdf : pyIsSpace d = false := by simpa using hd
      have h2 : c = d ∨ c ∈ collapseAux false rest := by
        simpa [collapseAux, hdf] using h
      rcases h2 with h3 | h3
      · rw [h3, hdf] at hc
        cases hc
      · exact ih false h3 hc

/-- After a whitespace run was just closed, the collapsed output cannot
start with a whitespace character. -/
theorem collapseAux_true_head : ∀ (l : List Char) (c : Char),
    (collapseAux true l).head? = some c → pyIsSpace c = false := by
  intro l
  induction l with
  | nil => intro c h; cases h
  | cons d rest ih =>
    intro c h
    by_cases hd : pyIsSpace d = true
    · exact ih c (by simpa [collapseAux, hd] using h)
    · have hdf : pyIsSpace d = false := by simpa using hd
      have h2 : d = c := by simpa [collapseAux, hdf] using h
      rw [← h2]
      exact hdf

/-- The collapsed output has no two adjacent whitespace characters. -/
theorem collapseAux_chain : ∀ (b : Bool) (l : List Char),
    (collapseAux b l).Chain'
      (fun a c => ¬(pyIsSpace a = true ∧ pyIsSpace c = true)) := by
  intro b l
  induction l generalizing b with
  | nil => exact List.chain'_nil
  | cons d rest ih =>
    by_cases hd : pyIsSpace d = true
    · cases b with
      | true =>
        have e : collapseAux true (d :: rest) = collapseAux true rest := by
          simp [collapseAux, hd]
        rw [e]
        exact ih true
      | false =>
        have e : collapseAux false (d :: rest) = ' ' :: collapseAux true rest := by
          simp [collapseAux, hd]
        rw [e, List.chain'_cons']
        refine ⟨?_, ih true⟩
        intro y hy hcon
        have hns := collapseAux_true_head rest y hy
        rw [hns] at hcon
        simp at hcon
    · have hdf : pyIsSpace d = false := by simpa using hd
      have e : collapseAux b (d :: rest) = d :: collapseAux false rest := by
        simp [collapseAux, hdf]
      rw [e, List.chain'_cons']
      refine ⟨?_, ih false⟩
      intro y hy hcon
      rw [hdf] at hcon
      simp at hcon

/-- The output of whitespace collapsing satisfies `Collapsed`. -/
theorem collapsed_collapseL (l : List Char) : Collapsed (collapseL l) :=
  ⟨fun c hc => collapseAux_space false l hc, collapseAux_chain false l⟩

/-- When the input does not start with whitespace, the run flag does not
matter. -/
theorem collapseAux_true_eq_false (l : List Char)
    (h : ∀ c, l.head? = some c → pyIsSpace c = false) :
    collapseAux true l = collapseAux false l := by
  cases l with
  | nil => rfl
  | cons d rest =>
    have hd := h d rfl
    simp [collapseAux, hd]

/-- Whitespace collapsing fixes every `Collapsed` list. -/
theorem collapseAux_eq_self : ∀ l : List Char, Collapsed l →
    collapseAux false l = l := by
  intro l
  induction l with
  | nil => intro _; rfl
  | cons d rest ih =>
    rintro ⟨h1, h2⟩
    have hrest : Collapsed rest :=
      ⟨fun c hc => h1 c (by simp [hc]), (List.chain'_cons'.mp h2).2⟩
    by_cases hd : pyIsSpace d = true
    · have hd2 : d = ' ' := h1 d (by simp) hd
      have hhead : ∀ c, rest.head? = some c → pyIsSpace c = false := by
        intro c hc
        have hr := (List.chain'_cons'.mp h2).1 c hc
        by_contra hcon
        exact hr ⟨hd, by simpa using hcon⟩
      have e2 : collapseAux true rest = rest := by
        rw [collapseAux_true_eq_false rest hhead]
        exact ih hrest
      have e3 : collapseAux false (d :: rest) = ' ' :: collapseAux true rest := by
        simp [collapseAux, hd]
      rw [e3, e2, hd2]
    · have hdf : pyIsSpace d = false := by simpa using hd
      simp [collapseAux, hdf, ih hrest]

/-- `stripL l` is a contiguous segment of `l`. -/
theorem stripL_isSegment (l : List Char) : stripL l <:+: l := by
  have h1 : l.dropWhile pyIsSpace <:+ l := List.dropWhile_suffix pyIsSpace
  have h3 : (l.dropWhile pyIsSpace).reverse.dropWhile pyIsSpace <:+
      (l.dropWhile pyIsSpace).reverse := List.dropWhile_suffix pyIsSpace
  have h2 : dropTrailingSpace (l.dropWhile pyIsSpace) <+:
      l.dropWhile pyIsSpace := by
    have h4 := List.reverse_prefix.mpr h3
    simpa [dropTrailingSpace] using h4
  exact h2.isInfix.trans h1.isInfix

/-- `Collapsed` restricts to `stripL`. -/
theorem collapsed_stripL {l : List Char} (h : Collapsed l) :
    Collapsed (stripL l) := by
  refine ⟨fun c hc => h.1 c (mem_of_mem_stripL hc), ?_⟩
  exact List.Chain'.infix h.2 (stripL_isSegment l)

/-- Re-normalising the collapse of a list of lower-case-stable, kept
characters only strips its edge whitespace. -/
theorem collapseL_restabilises (u : List Char)
    (hlow : ∀ c ∈ u, pyLowerChar c = c)
    (hkeep : ∀ c ∈ u, keepChar c = true) :
    normaliseL (collapseL u) = stripL (collapseL u) := by
  have hlow2 : ∀ c ∈ collapseL u, pyLowerChar c = c := by
    intro c hc
    rcases mem_collapseAux false u hc with h | h
    · rw [h]
      decide
    · exact hlow c h
  have hkeep2 : ∀ c ∈ stripL (collapseL u), keepChar c = true := by
    intro c hc
    rcases mem_collapseAux false u (mem_of_mem_stripL hc) with h | h
    · rw [h]
      decide
    · exact hkeep c h
  unfold normaliseL
  rw [nfkdL_id]
  have e1 : lowerL (collapseL u) = collapseL u := by
    have e2 : List.map pyLowerChar (collapseL u) =
        List.map id (collapseL u) :=
      List.map_congr_left (fun c hc => hlow2 c hc)
    simpa [lowerL] using e2
  rw [e1, List.filter_eq_self.mpr hkeep2]
  exact collapseAux_eq_self _ (collapsed_stripL (collapsed_collapseL u))

/-- The two-pass/one-pass relation at the character-list level:
re-normalising a normalised list just strips its edge whitespace. -/
theorem normaliseL_normaliseL (l : List Char) :
    normaliseL (normaliseL l) = stripL (normaliseL l) := by
  have hlow : ∀ c ∈ (stripL (lowerL (nfkdL l))).filter keepChar,
      pyLowerChar c = c := by
    intro c hc
    have h2 : c ∈ lowerL (nfkdL l) :=
      mem_of_mem_stripL (List.mem_of_mem_filter hc)
    rcases List.mem_map.mp h2 with ⟨d, _, hd⟩
    rw [← hd]
    exact pyLowerChar_idem d
  have hkeep : ∀ c ∈ (stripL (lowerL (nfkdL l))).filter keepChar,
      keepChar c = true :=
    fun c hc => List.of_mem_filter hc
  exact collapseL_restabilises _ hlow hkeep

/-! ## Claim C7 -/

/-- Counterexample to claim C7: `normalise` is not idempotent.  On
`"? a"` the removed `?` leaves a leading space that survives the first
pass (stripping happens before character removal), but is stripped by the
second pass: `normalise "? a" = " a"` while
`normalise (normalise "? a") = "a"`. -/
theorem C7_counterexample :
    normalise (normalise "? a") ≠ normalise "? a" := by
  decide

/-- Claim C7 as amended: `normalise (normalise s) = strip (normalise s)`.
Idempotence holds exactly when the normalised string carries no leading or
trailing whitespace; it fails when a character deleted by the
`[^\w\s.,;:/()\-]` filter sat at a string edge and left residual edge
whitespace, because the source strips before it filters. -/
theorem C7_normalise_strip (s : String) :
    normalise (normalise s) = pyStrip (normalise s) := by
  show (⟨normaliseL (normaliseL s.data)⟩ : String) = ⟨stripL (normaliseL s.data)⟩
  rw [normaliseL_normaliseL]

end Medi
